import Mathlib

/-
Verification of the "Introduction to PyMC" notebook
(src/notebooks/Introduction to PyMC.ipynb), the repository's single
source file.  The notebook's own Python functions and the concrete
sequence of calls it makes are embedded below; numpy float arrays are
modelled as lists of reals, integer arrays as lists of integers.
Code cells are numbered 0, 1, 2, ... in notebook order (markdown cells
included in the numbering used in the comments: cell 1 is the survival
model cell, cell 3 the first MCMC/sample cell, and so on).
-/

namespace IntroPyMC

/-- Embeds `failure = (data.censored==0).astype(int)` from cell 1: an
elementwise indicator that is 1 where the censoring indicator is 0 and
0 elsewhere. -/
def failureOf (censored : List ℤ) : List ℤ :=
  censored.map (fun c => if c = 0 then 1 else 0)

/-- Embeds `lam = Lambda('lam', lambda b0=beta0, b1=beta1, tr=data.treat:
np.exp(b0 + b1*tr))` from cell 1: the elementwise exponential of the
linear predictor, one entry per treatment covariate. -/
noncomputable def lam (b0 b1 : ℝ) (tr : List ℝ) : List ℝ :=
  tr.map (fun t => Real.exp (b0 + b1 * t))

/-- Embeds the body of `survival` from cell 1:
`return sum(f*np.log(lam) - lam*value)`, with numpy's elementwise
products, logarithm, and subtraction rendered as zipWith and the final
`sum` as a list sum. -/
noncomputable def survival (value lam f : List ℝ) : ℝ :=
  (List.zipWith (fun a b => a - b)
    (List.zipWith (fun fi li => fi * Real.log li) f lam)
    (List.zipWith (fun li vi => li * vi) lam value)).sum

/-- Length of `disasters_array` (the library's coal-mining series,
years 1851..1961).  The notebook pins this value itself: cell 6 plots
the series against `np.arange(1851, 1962)` (111 years), and the
notebook's own copy `x` of the series in cell 56 has 111 entries. -/
def nCountData : Nat := 111

/-- Embeds the array `x` from cell 56: the disasters series with two
entries replaced by `None` (at positions 39 and 83). -/
def xData : List (Option ℤ) :=
  [some 4, some 5, some 4, some 0, some 1, some 4, some 3, some 4, some 0, some 6,
   some 3, some 3, some 4, some 0, some 2, some 6,
   some 3, some 3, some 5, some 4, some 5, some 3, some 1, some 4, some 4, some 1,
   some 5, some 5, some 3, some 4, some 2, some 5,
   some 2, some 2, some 3, some 4, some 2, some 1, some 3, none, some 2, some 1,
   some 1, some 1, some 1, some 3, some 0, some 0,
   some 1, some 0, some 1, some 1, some 0, some 0, some 3, some 1, some 0, some 3,
   some 2, some 2, some 0, some 1, some 1, some 1,
   some 0, some 1, some 0, some 1, some 0, some 0, some 0, some 2, some 1, some 0,
   some 0, some 0, some 1, some 1, some 0, some 2,
   some 3, some 3, some 1, none, some 2, some 1, some 1, some 1, some 1, some 2,
   some 4, some 2, some 0, some 0, some 1, some 4,
   some 0, some 0, some 0, some 1, some 0, some 0, some 0, some 0, some 0, some 1,
   some 0, some 0, some 1, some 0, some 1]

/-- Embeds the body of `rate` from cell 12 (and the identical inner
`rate` of `missing_data_model` in cell 62):
`out = np.empty(len(disasters_array)); out[:s] = e; out[s:] = l`.
The slice `out[:s]` covers the first `min s nCountData` positions and
`out[s:]` the remaining `nCountData - s` positions, exactly as numpy
basic slicing clips the bounds. -/
def rate (s : Nat) (e l : ℝ) : List ℝ :=
  List.replicate (min s nCountData) e ++ List.replicate (nCountData - s) l

/-- One call to an MCMC object's `sample` method, with the keyword
arguments the notebook passes (`none` = argument not supplied, so the
library default applies). -/
structure SampleCall where
  cell : Nat
  iter : Option Nat
  burn : Option Nat
  thin : Option Nat
  deriving DecidableEq

/-- The three `sample` invocations of the notebook:
cell 3  `M.sample(iter=10000, burn=5000)`,
cell 46 `M.sample(iter=10000, burn=1000)`,
cell 64 `M_missing.sample(5000)` (a single positional `iter`). -/
def sampleCalls : List SampleCall :=
  [⟨3, some 10000, some 5000, none⟩,
   ⟨46, some 10000, some 1000, none⟩,
   ⟨64, some 5000, none, none⟩]

/-- Trace-storage backend selected when constructing an MCMC object:
`ram` is the library's in-memory default, `pickle` the on-disk Python
serialization database. -/
inductive DbBackend
  | ram
  | pickle
  deriving DecidableEq

/-- One construction of an MCMC object, with the database backend it
requests. -/
structure MCMCCall where
  cell : Nat
  db : DbBackend
  deriving DecidableEq

/-- The three MCMC constructions of the notebook:
cell 3  `M = MCMC([beta0, beta1, lam, survival], db='pickle')`,
cell 42 `M = MCMC(disaster_model)` (default backend),
cell 64 `M_missing = MCMC(missing_data_model())` (default backend). -/
def mcmcCalls : List MCMCCall :=
  [⟨3, DbBackend.pickle⟩, ⟨42, DbBackend.ram⟩, ⟨64, DbBackend.ram⟩]

/-- Whether a backend writes the traces to durable storage. -/
def durable : DbBackend → Bool
  | DbBackend.pickle => true
  | DbBackend.ram => false

/-- Every top-level assignment statement of the notebook that binds a
name (imports are name bindings too but are not variable definitions;
names local to a function body, such as those inside
`missing_data_model`, live in their own scope).  Each entry is the
bound name with the cell holding the assignment. -/
def notebookAssignments : List (String × Nat) :=
  [("failure", 1), ("beta0", 1), ("beta1", 1), ("lam", 1), ("survival", 1),
   ("M", 3), ("n_count_data", 6), ("switchpoint", 8), ("early_mean", 10),
   ("late_mean", 10), ("rate", 12), ("disasters", 14), ("M", 42), ("x", 56),
   ("masked_values", 58), ("disasters", 60), ("missing_data_model", 62),
   ("M_missing", 64)]

/-- Number of top-level assignment statements binding a given name. -/
def assignCount (n : String) : Nat :=
  (notebookAssignments.filter (fun a => a.fst == n)).length

/-- Kinds of Python statements occurring in the notebook's code cells.
The grammar offers exception handling and loop constructs so that
their absence from the notebook is a statement about the code, not
about the grammar. -/
inductive PyStmt
  | importLib
  | assignName
  | exprCall
  | funcDef
  | returnStmt
  | tryBlock
  | forLoop
  | whileLoop
  deriving DecidableEq, BEq

/-- Every statement of every code cell of the notebook, in order,
with function bodies flattened in place (the `%matplotlib inline`
magic is not a Python statement and is omitted).
Cell 1: five imports and the seaborn call, four assignments, the
`survival` def whose body is one return.  Cell 3: `M = ...` and
`M.sample(...)`.  Cell 4: one call.  Cell 6: two imports, one
assignment, six plotting calls.  Cell 8: import and assignment.
Cell 10: two assignments.  Cell 12: the `rate` def whose body is
three assignments and a return.  Cell 14: one assignment.  Cells 15,
18, 20, 21, 23, 27, 29, 30, 31, 33, 35, 36, 37, 38: one attribute
inspection each.  Cell 42: import and assignment.  Cells 43, 44: one
inspection each.  Cell 46: one call.  Cells 48, 50, 52, 54: one call
each.  Cell 56: one assignment.  Cell 58: assignment and inspection.
Cell 60: one assignment.  Cell 62: the `missing_data_model` def whose
body is three assignments, the inner `rate` def (three assignments
and a return), two assignments and a return.  Cell 64: assignment and
call.  Cells 65, 66, 68: one each.  Cell 70: import and call. -/
def notebookStmts : List PyStmt :=
  [PyStmt.importLib, PyStmt.exprCall, PyStmt.importLib, PyStmt.importLib,
   PyStmt.importLib, PyStmt.assignName, PyStmt.assignName, PyStmt.assignName,
   PyStmt.assignName, PyStmt.funcDef, PyStmt.returnStmt,
   PyStmt.assignName, PyStmt.exprCall,
   PyStmt.exprCall,
   PyStmt.importLib, PyStmt.importLib, PyStmt.assignName, PyStmt.exprCall,
   PyStmt.exprCall, PyStmt.exprCall, PyStmt.exprCall, PyStmt.exprCall,
   PyStmt.exprCall,
   PyStmt.importLib, PyStmt.assignName,
   PyStmt.assignName, PyStmt.assignName,
   PyStmt.funcDef, PyStmt.assignName, PyStmt.assignName, PyStmt.assignName,
   PyStmt.returnStmt,
   PyStmt.assignName,
   PyStmt.exprCall, PyStmt.exprCall, PyStmt.exprCall, PyStmt.exprCall,
   PyStmt.exprCall, PyStmt.exprCall, PyStmt.exprCall, PyStmt.exprCall,
   PyStmt.exprCall, PyStmt.exprCall, PyStmt.exprCall, PyStmt.exprCall,
   PyStmt.exprCall, PyStmt.exprCall,
   PyStmt.importLib, PyStmt.assignName,
   PyStmt.exprCall, PyStmt.exprCall,
   PyStmt.exprCall,
   PyStmt.exprCall, PyStmt.exprCall, PyStmt.exprCall, PyStmt.exprCall,
   PyStmt.assignName,
   PyStmt.assignName, PyStmt.exprCall,
   PyStmt.assignName,
   PyStmt.funcDef, PyStmt.assignName, PyStmt.assignName, PyStmt.assignName,
   PyStmt.funcDef, PyStmt.assignName, PyStmt.assignName, PyStmt.assignName,
   PyStmt.returnStmt, PyStmt.assignName, PyStmt.assignName, PyStmt.returnStmt,
   PyStmt.assignName, PyStmt.exprCall,
   PyStmt.exprCall, PyStmt.exprCall, PyStmt.exprCall,
   PyStmt.importLib, PyStmt.exprCall]

/-- Whether a statement kind is an exception-handling construct. -/
def handlesErrors : PyStmt → Bool
  | PyStmt.tryBlock => true
  | _ => false

/-- Role of a notebook statement in an example's flow.  `loadData`:
the example's raw data brought into scope (the melanoma data import,
the `disasters_array` import, the literal `x`).  `declareFree`,
`declareObserved`, `declareDet`: creation of a named model variable
(unobserved stochastic, observed stochastic, deterministic).
`fitCall`: constructing the MCMC object or calling its `sample`
method.  `reportResult`: post-fit trace slices, trace plots,
summaries.  `aux`: everything else (imports of code, derived
indicator and masked-view construction, plots of the raw data,
attribute inspections of variables before or between fits). -/
inductive Phase
  | loadData
  | declareFree
  | declareObserved
  | declareDet
  | fitCall
  | reportResult
  | aux
  deriving DecidableEq

/-- Position of each phase in the flow the spec describes: load
before declare, declare before fit, fit before report.  `aux` steps
are excluded before the ordering is checked, so their rank is never
used. -/
def phaseRank : Phase → Nat
  | Phase.loadData => 0
  | Phase.declareFree => 1
  | Phase.declareObserved => 1
  | Phase.declareDet => 1
  | Phase.fitCall => 2
  | Phase.reportResult => 3
  | Phase.aux => 0

/-- The steps of an example that belong to the load/declare/fit/report
flow. -/
def modelSteps (steps : List Phase) : List Phase :=
  steps.filter (fun p => decide (p ≠ Phase.aux))

/-- Adjacent steps of a list never go backwards in the flow. -/
def phaseOrdered : List Phase → Bool
  | [] => true
  | [_] => true
  | a :: b :: rest => decide (phaseRank a ≤ phaseRank b) && phaseOrdered (b :: rest)

/-- Number of steps of a given phase in an example. -/
def countPhase (p : Phase) (steps : List Phase) : Nat :=
  (steps.filter (fun q => decide (q = p))).length

/-- The survival example, cells 1-4: data import, derived failure
indicator, `beta0`, `beta1`, `lam`, `survival`, MCMC construction,
`sample`, `Matplot.plot(beta1)`.  The seaborn/pymc/numpy imports and
the seaborn call are `aux`. -/
def survivalExampleSteps : List Phase :=
  [Phase.aux, Phase.aux, Phase.loadData, Phase.aux,
   Phase.aux, Phase.declareFree, Phase.declareFree, Phase.declareDet,
   Phase.declareObserved, Phase.fitCall, Phase.fitCall, Phase.reportResult]

/-- The coal-mining example, cells 6-54: `disasters_array` import,
the raw-data bar chart (`aux`: it plots the data, not results),
`switchpoint`, `early_mean`, `late_mean`, `rate`, `disasters`, the
pre-fit value/logp/parents inspections (`aux`), MCMC construction and
`sample`, then the post-fit trace slice, histogram, `Matplot.plot`
and `summary`.  The later fine-tuning section (cells 68-70) is not
part of the example. -/
def coalExampleSteps : List Phase :=
  [Phase.loadData, Phase.aux, Phase.aux,
   Phase.aux, Phase.aux, Phase.aux, Phase.aux, Phase.aux, Phase.aux,
   Phase.aux, Phase.declareFree,
   Phase.declareFree, Phase.declareFree,
   Phase.declareDet,
   Phase.declareObserved,
   Phase.aux, Phase.aux, Phase.aux, Phase.aux, Phase.aux, Phase.aux,
   Phase.aux, Phase.aux, Phase.aux, Phase.aux, Phase.aux, Phase.aux,
   Phase.aux, Phase.aux,
   Phase.aux, Phase.fitCall,
   Phase.aux, Phase.aux,
   Phase.fitCall,
   Phase.reportResult, Phase.reportResult, Phase.reportResult,
   Phase.reportResult]

/-- The missing-data example, cells 56-66: the literal `x`, the
masked-view demonstration (`aux`), the model declarations inside
`missing_data_model` (its local masked view is `aux`), MCMC
construction and `sample`, the stochastics listing (`aux`), and the
summary plot. -/
def missingExampleSteps : List Phase :=
  [Phase.loadData,
   Phase.aux, Phase.aux,
   Phase.declareFree, Phase.declareFree, Phase.declareFree,
   Phase.declareDet, Phase.aux, Phase.declareObserved,
   Phase.fitCall, Phase.fitCall,
   Phase.aux, Phase.reportResult]

/-- An example follows the spec's flow: its non-auxiliary steps have
nondecreasing phase ranks (load, then declarations, then fitting,
then reports), it has at least one data load, at least one unobserved
and one observed stochastic declaration, exactly one deterministic
declaration, at least one fitting step and at least one post-fit
report. -/
def phaseOk (steps : List Phase) : Prop :=
  phaseOrdered (modelSteps steps) = true ∧
  countPhase Phase.loadData steps ≠ 0 ∧
  countPhase Phase.declareFree steps ≠ 0 ∧
  countPhase Phase.declareObserved steps ≠ 0 ∧
  countPhase Phase.declareDet steps = 1 ∧
  countPhase Phase.fitCall steps ≠ 0 ∧
  countPhase Phase.reportResult steps ≠ 0

/-- Sanity check tying `nCountData` to the notebook's own copy of the
disasters series. -/
lemma xData_length : xData.length = nCountData := by decide

/-- Unfolding `survival` one element at a time. -/
lemma survival_cons (v l fi : ℝ) (vs ls fs : List ℝ) :
    survival (v :: vs) (l :: ls) (fi :: fs)
      = (fi * Real.log l - l * v) + survival vs ls fs := by
  simp [survival]

/-- The `survival` function computes the sum of the per-observation
terms, indexed over the value vector. -/
lemma survival_eq_sum :
    ∀ (value lamv f : List ℝ), lamv.length = value.length →
      f.length = value.length →
      survival value lamv f
        = ∑ i in Finset.range value.length,
            (f.getD i 0 * Real.log (lamv.getD i 0)
              - lamv.getD i 0 * value.getD i 0)
  | [], lamv, f, _, _ => by simp [survival]
  | v :: vs, [], f, hl, _ => by simp at hl
  | v :: vs, l :: ls, [], _, hf => by simp at hf
  | v :: vs, l :: ls, fi :: fs, hl, hf => by
      have hl' : ls.length = vs.length := by simpa using hl
      have hf' : fs.length = vs.length := by simpa using hf
      rw [survival_cons, survival_eq_sum vs ls fs hl' hf',
        List.length_cons, Finset.sum_range_succ']
      simp only [List.getD_cons_succ, List.getD_cons_zero]
      ring

/-- Element lookup in a replicated list. -/
lemma getD_replicate_of_lt (n i : Nat) (a : ℝ) (hi : i < n) :
    (List.replicate n a).getD i 0 = a := by
  simp [List.getD_eq_getElem?_getD, List.getElem?_replicate, hi]

/-- Elementwise description of `rate`: the early mean before the
switchpoint, the late mean from the switchpoint on. -/
lemma rate_getD (s : Nat) (e l : ℝ) (i : Nat) (hs : s ≤ nCountData)
    (hi : i < nCountData) :
    (rate s e l).getD i 0 = if i < s then e else l := by
  have hmin : min s nCountData = s := Nat.min_eq_left hs
  by_cases h : i < s
  · simp [rate, List.getD_eq_getElem?_getD, List.getElem?_append, hmin,
      List.getElem?_replicate, h]
  · have h2 : i - s < nCountData - s := by omega
    simp [rate, List.getD_eq_getElem?_getD, List.getElem?_append, hmin,
      List.getElem?_replicate, h, h2]

/-- The array built by `rate` always has one entry per year of the
disasters series. -/
lemma rate_length (s : Nat) (e l : ℝ) (hs : s ≤ nCountData) :
    (rate s e l).length = nCountData := by
  simp [rate, Nat.min_eq_left hs]
  omega

/-- With the switchpoint strictly inside the series and distinct
means, the output of `rate` is not a constant array of either mean. -/
lemma rate_ne_const (s : Nat) (e l : ℝ) (hs : s ≤ nCountData)
    (h0 : 0 < s) (h1 : s < nCountData) (hne : e ≠ l) :
    rate s e l ≠ List.replicate nCountData e ∧
    rate s e l ≠ List.replicate nCountData l := by
  constructor
  · intro h
    have hv : (rate s e l).getD (nCountData - 1) 0 = e := by
      rw [h]
      exact getD_replicate_of_lt _ _ _ (by omega)
    rw [rate_getD s e l _ hs (by omega), if_neg (by omega)] at hv
    exact hne hv.symm
  · intro h
    have hv : (rate s e l).getD 0 0 = l := by
      rw [h]
      exact getD_replicate_of_lt _ _ _ (by omega)
    rw [rate_getD s e l 0 hs (by omega), if_pos h0] at hv
    exact hne hv

/-- C1 (counterexample): the claim that every operation is a pure
call-through and that the repository contains no function that itself
computes a value is false.  The notebook's own `rate`, at switchpoint
40 with means 1 and 2, computes a regime-allocated rate array — it
mixes both inputs, so it equals no constant broadcast of either — and
the notebook's own `survival` computes a log-likelihood value
(here, -2). -/
theorem rate_not_a_call_through :
    (rate 40 (1 : ℝ) 2).getD 0 0 = 1 ∧
    (rate 40 (1 : ℝ) 2).getD 110 0 = 2 ∧
    rate 40 (1 : ℝ) 2 ≠ List.replicate nCountData 1 ∧
    rate 40 (1 : ℝ) 2 ≠ List.replicate nCountData 2 ∧
    survival [(2 : ℝ)] [1] [1] = -2 := by
  obtain ⟨hne1, hne2⟩ :=
    rate_ne_const 40 (1 : ℝ) 2 (by decide) (by decide) (by decide) (by norm_num)
  refine ⟨?_, ?_, hne1, hne2, ?_⟩
  · rw [rate_getD 40 1 2 0 (by decide) (by decide)]
    norm_num
  · rw [rate_getD 40 1 2 110 (by decide) (by decide)]
    norm_num
  · simp [survival]

/-- C1 (amended): the notebook's steps are mostly direct library
calls, but the repository does define two value-computing functions of
its own: `survival`, which computes the censored exponential
log-likelihood (on a single observation it returns exactly
f * log(lam) - lam * t), and `rate`, which computes a regime-allocated
rate array that is no constant broadcast of either input mean. -/
theorem repo_defines_value_computing_functions :
    (∀ v l fi : ℝ, survival [v] [l] [fi] = fi * Real.log l - l * v) ∧
    (∃ s : Nat, ∃ e l : ℝ, s ≤ nCountData ∧
      rate s e l ≠ List.replicate nCountData e ∧
      rate s e l ≠ List.replicate nCountData l) := by
  constructor
  · intro v l fi
    simp [survival]
  · exact ⟨40, 1, 2, by decide,
      rate_ne_const 40 1 2 (by decide) (by decide) (by decide) (by norm_num)⟩

/-- C2 (counterexample): the claim that no repository-defined
expression structurally guarantees an invariant such as strict
positivity for all real inputs is false: the expression defining
`lam`, an elementwise exponential, yields a strictly positive value at
every element for every choice of real coefficients and covariates;
in particular its single entry at b0 = b1 = 0, tr = [1] is positive. -/
theorem lam_guarantees_positivity :
    (∀ (b0 b1 : ℝ) (tr : List ℝ), ∀ y ∈ lam b0 b1 tr, 0 < y) ∧
    (0 : ℝ) < (lam 0 0 [1]).getD 0 0 := by
  have key : ∀ (b0 b1 : ℝ) (tr : List ℝ), ∀ y ∈ lam b0 b1 tr, 0 < y := by
    intro b0 b1 tr y hy
    simp only [lam, List.mem_map] at hy
    obtain ⟨t, _, rfl⟩ := hy
    exact Real.exp_pos _
  refine ⟨key, ?_⟩
  have h1 : (lam 0 0 [1]).getD 0 0 = Real.exp (0 + 0 * 1) := by
    simp [lam]
  rw [h1]
  exact Real.exp_pos _

/-- C2 (amended): invariants such as the integrality of the
switch-point or the prior's support are enforced inside the external
library's variable classes, but the repository-defined expression for
the survival-rate variable `lam` does structurally guarantee strict
positivity of every element of its result for all real inputs, being
an elementwise exponential. -/
theorem lam_structurally_positive (b0 b1 : ℝ) (tr : List ℝ) (y : ℝ)
    (hy : y ∈ lam b0 b1 tr) : 0 < y := by
  simp only [lam, List.mem_map] at hy
  obtain ⟨t, _, rfl⟩ := hy
  exact Real.exp_pos _

/-- Witness for C2's amended theorem at b0 = b1 = 0, tr = [1]. -/
theorem lam_structurally_positive_witness :
    (Real.exp 0 ∈ lam 0 0 [1]) ∧ 0 < Real.exp 0 :=
  ⟨by simp [lam], lam_structurally_positive 0 0 [1] (Real.exp 0) (by simp [lam])⟩

/-- C3: for every switchpoint s with s ≤ len(disasters_array) and all
real means e and l, `rate s e l` has length len(disasters_array), its
entries before index s all equal e, its entries from index s on all
equal l; s = 0 gives the everywhere-l array and s = len(disasters_array)
the everywhere-e array. -/
theorem rate_allocates_by_regime (s : Nat) (e l : ℝ) (hs : s ≤ nCountData) :
    (rate s e l).length = nCountData ∧
    (∀ i, i < nCountData →
      ((i < s → (rate s e l).getD i 0 = e) ∧
       (s ≤ i → (rate s e l).getD i 0 = l))) ∧
    rate 0 e l = List.replicate nCountData l ∧
    rate nCountData e l = List.replicate nCountData e := by
  refine ⟨rate_length s e l hs, fun i hi => ⟨fun h => ?_, fun h => ?_⟩, ?_, ?_⟩
  · rw [rate_getD s e l i hs hi, if_pos h]
  · rw [rate_getD s e l i hs hi, if_neg (by omega)]
  · simp [rate]
  · simp [rate]

/-- Witness for C3 at s = 3, e = 2, l = 5. -/
theorem rate_allocates_by_regime_witness :
    3 ≤ nCountData ∧
    ((rate 3 (2 : ℝ) 5).length = nCountData ∧
     (∀ i, i < nCountData →
       ((i < 3 → (rate 3 (2 : ℝ) 5).getD i 0 = 2) ∧
        (3 ≤ i → (rate 3 (2 : ℝ) 5).getD i 0 = 5))) ∧
     rate 0 (2 : ℝ) 5 = List.replicate nCountData 5 ∧
     rate nCountData (2 : ℝ) 5 = List.replicate nCountData 2) :=
  ⟨by decide, rate_allocates_by_regime 3 2 5 (by decide)⟩

/-- C4: on equal-length vectors with positive rates, `survival`
returns exactly the sum over i of f_i * log(lam_i) - lam_i * t_i, and
an observation with f_i = 0 contributes only the term -lam_i * t_i,
with no log term. -/
theorem survival_is_censored_loglik (value lamv f : List ℝ)
    (hl : lamv.length = value.length) (hf : f.length = value.length)
    (_hpos : ∀ y ∈ lamv, 0 < y) :
    survival value lamv f
      = ∑ i in Finset.range value.length,
          (f.getD i 0 * Real.log (lamv.getD i 0)
            - lamv.getD i 0 * value.getD i 0) ∧
    ∀ i, i < value.length → f.getD i 0 = 0 →
      f.getD i 0 * Real.log (lamv.getD i 0) - lamv.getD i 0 * value.getD i 0
        = -(lamv.getD i 0 * value.getD i 0) := by
  refine ⟨survival_eq_sum value lamv f hl hf, fun i _ h0 => ?_⟩
  rw [h0]
  ring

/-- Witness for C4 at t = [2], lam = [1], f = [0] (one censored
observation). -/
theorem survival_is_censored_loglik_witness :
    ([(1 : ℝ)].length = [(2 : ℝ)].length ∧
     [(0 : ℝ)].length = [(2 : ℝ)].length ∧
     (∀ y ∈ [(1 : ℝ)], 0 < y)) ∧
    (survival [(2 : ℝ)] [1] [0]
       = ∑ i in Finset.range ([(2 : ℝ)].length),
           ([(0 : ℝ)].getD i 0 * Real.log ([(1 : ℝ)].getD i 0)
             - [(1 : ℝ)].getD i 0 * [(2 : ℝ)].getD i 0) ∧
     ∀ i, i < [(2 : ℝ)].length → [(0 : ℝ)].getD i 0 = 0 →
       [(0 : ℝ)].getD i 0 * Real.log ([(1 : ℝ)].getD i 0)
           - [(1 : ℝ)].getD i 0 * [(2 : ℝ)].getD i 0
         = -([(1 : ℝ)].getD i 0 * [(2 : ℝ)].getD i 0)) :=
  ⟨⟨rfl, rfl, by norm_num⟩,
   survival_is_censored_loglik [2] [1] [0] rfl rfl (by norm_num)⟩

/-- C5 (counterexample): the claim that every `sample` invocation
supplies iteration, burn-in and thinning values is false: no call of
the notebook supplies a thinning interval, and the third call (cell
64) supplies neither burn-in nor thinning. -/
theorem sample_calls_lack_thinning :
    sampleCalls.all (fun c => c.thin.isNone) = true ∧
    (sampleCalls.getD 2 ⟨0, none, none, none⟩).iter = some 5000 ∧
    (sampleCalls.getD 2 ⟨0, none, none, none⟩).burn = none := by
  decide

/-- C5 (amended): every `sample` invocation supplies a number of
iterations; only the first two (cells 3 and 46) also supply a burn-in
length; none supplies a thinning interval, the library default being
used instead. -/
theorem sample_calls_parameters :
    sampleCalls.all (fun c => c.iter.isSome) = true ∧
    (sampleCalls.filter (fun c => c.burn.isSome)).map SampleCall.cell
      = [3, 46] ∧
    sampleCalls.all (fun c => c.thin.isNone) = true := by
  decide

/-- C6 (counterexample): the claim that no repository-authored call
requests durable storage of variable values or traces is false: the
first MCMC construction (cell 3) requests the pickle serialization
database, a durable backend. -/
theorem first_mcmc_requests_pickle_db :
    (mcmcCalls.getD 0 ⟨0, DbBackend.ram⟩).db = DbBackend.pickle ∧
    durable DbBackend.pickle = true := by
  decide

/-- C6 (amended): exactly one repository-authored MCMC construction —
the survival example's, in cell 3 — requests durable trace storage via
the pickle serialization database; the other two constructions leave
the default in-memory backend. -/
theorem pickle_db_in_first_call_only :
    (mcmcCalls.filter (fun c => durable c.db)).map MCMCCall.cell = [3] ∧
    (mcmcCalls.getD 0 ⟨0, DbBackend.ram⟩).db = DbBackend.pickle ∧
    (mcmcCalls.drop 1).all (fun c => !(durable c.db)) = true := by
  decide

/-- C7 (counterexample): the claim that no repository-authored
statement assigns a new value to any variable after its construction
is false: the name `disasters` is bound by assignment statements in
two different cells (14 and then 60), and so is `M` (cells 3 and 42). -/
theorem disasters_bound_in_two_cells :
    (notebookAssignments.filter (fun a => a.fst == "disasters")).map Prod.snd
      = [14, 60] ∧
    (notebookAssignments.filter (fun a => a.fst == "M")).map Prod.snd
      = [3, 42] := by
  decide

/-- C7 (amended): every top-level name of the notebook is bound by
exactly one assignment statement, except `M` (rebound when the
coal-mining model is fit in cell 42) and `disasters` (rebound when the
masked-data variant is created in cell 60), each bound twice. -/
theorem rebinding_limited_to_disasters_and_M :
    (notebookAssignments.map Prod.fst).all
      (fun n => (n == "disasters") || (n == "M") || (assignCount n == 1))
      = true ∧
    assignCount "disasters" = 2 ∧ assignCount "M" = 2 := by
  decide

/-- C8: the notebook contains no exception-handling statement and no
loop construct: every statement of every code cell is an import, an
assignment, an expression/call, a function definition, or a return, so
no repository-authored code catches, retries, or transforms an error
and any exception propagates out of the cell unchanged. -/
theorem no_error_handling_stmts :
    notebookStmts.all (fun s => !(handlesErrors s)) = true ∧
    notebookStmts.all
      (fun s => !(s == PyStmt.tryBlock) && !(s == PyStmt.forLoop) &&
        !(s == PyStmt.whileLoop)) = true := by
  decide

/-- C9: each of the notebook's three examples follows the flow the
spec describes: the example data are loaded first, then the named
variables are declared (at least one observed, at least one unknown,
exactly one deterministic computed from the others), then the
collection is handed to the fitting routine, and plots and summaries
of the results come only after fitting. -/
theorem examples_follow_load_declare_fit_report :
    phaseOk survivalExampleSteps ∧ phaseOk coalExampleSteps ∧
    phaseOk missingExampleSteps := by
  unfold phaseOk
  decide

/-- C10: the derived failure indicator has every element in {0, 1},
equals 1 exactly where the censoring indicator is 0, and applying the
same construction to it yields 1 exactly where the censoring indicator
is nonzero. -/
theorem failure_complements_censoring (censored : List ℤ) (i : Nat)
    (hi : i < censored.length) :
    ((failureOf censored).getD i 0 = 0 ∨ (failureOf censored).getD i 0 = 1) ∧
    ((failureOf censored).getD i 0 = 1 ↔ censored.getD i 0 = 0) ∧
    ((failureOf (failureOf censored)).getD i 0 = 1 ↔
      censored.getD i 0 ≠ 0) := by
  have h1 : (failureOf censored).getD i 0
      = if censored[i] = 0 then 1 else 0 := by
    simp [failureOf, List.getD_eq_getElem?_getD, List.getElem?_map,
      List.getElem?_eq_getElem hi]
  have h2 : (failureOf (failureOf censored)).getD i 0
      = if (if censored[i] = 0 then (1 : ℤ) else 0) = 0 then 1 else 0 := by
    simp [failureOf, List.getD_eq_getElem?_getD, List.getElem?_map,
      List.getElem?_eq_getElem hi]
  have h3 : censored.getD i 0 = censored[i] := by
    simp [List.getD_eq_getElem?_getD, List.getElem?_eq_getElem hi]
  rw [h1, h2, h3]
  by_cases hc : censored[i] = 0 <;> simp [hc]

/-- Witness for C10 at censored = [5, 0], i = 0. -/
theorem failure_complements_censoring_witness :
    0 < ([(5 : ℤ), 0]).length ∧
    (((failureOf [(5 : ℤ), 0]).getD 0 0 = 0 ∨
      (failureOf [(5 : ℤ), 0]).getD 0 0 = 1) ∧
     ((failureOf [(5 : ℤ), 0]).getD 0 0 = 1 ↔
       ([(5 : ℤ), 0]).getD 0 0 = 0) ∧
     ((failureOf (failureOf [(5 : ℤ), 0])).getD 0 0 = 1 ↔
       ([(5 : ℤ), 0]).getD 0 0 ≠ 0)) :=
  ⟨by decide, failure_complements_censoring [5, 0] 0 (by decide)⟩

end IntroPyMC
